import Mathlib

/-!
Shallow embedding of `src/decorator.py` (the `Decorator` class of the
christopher-henderson/Decorator repository) and proofs of the specification
claims about it.

The Python source defines a single class:

  class Decorator(object):
      def __init__(self, function=None):
          self.function = function
          if function:
              self.__wrap__(function)
      def __decorator__(self, *args, **kwargs):
          raise NotImplementedError("Call behavior is not defined in this abstract class")
      def __wrap__(self, function):
          self.function = function
          update_wrapper(self, function)
          return self
      def __call__(self, *args, **kwargs):
          if self.function:
              return self.__decorator__(*args, **kwargs)
          return self.__wrap__(args[0])
      def __get__(self, instance, klass=None):
          if instance is None:
              return self
          return partial(self, instance)

Modelling choices:
  * Python values relevant to the decorator protocol are modelled by `Value`:
    `None`, opaque objects (identified by a `Nat`), and functions carrying the
    descriptive metadata that `functools.update_wrapper` copies
    (`__module__`, `__name__`, `__qualname__`, `__doc__`), each optional
    because a callable may lack any of them.  On this domain Python default
    truthiness holds: `None` is falsy, objects and functions are truthy.
  * An instance's attribute dictionary is the structure `DecoratorState`:
    the `function` attribute plus the metadata slots `update_wrapper` writes.
    Subclass configuration attributes (set by an overriding `__init__` before
    delegating to the base one) are an opaque `config` field of type `C`.
  * Dynamic dispatch on the overridable `__decorator__` hook is modelled by
    passing the hook as a function `Hook C`; the base class's hook
    (which raises `NotImplementedError`) is `baseDecoratorHook`.
  * Exceptions are modelled with `Except PyErr`; a method call returns its
    `Except` result together with the (possibly updated) instance state.
    `__call__` returning `self` is the distinguished result
    `CallResult.selfRef`, keeping object identity observable.
-/

/-- Descriptive metadata carried by a Python callable, as consulted by
`functools.update_wrapper`.  Every field is optional: a callable object may
lack any of these attributes, in which case `update_wrapper` skips it. -/
structure Func where
  module : Option String
  name : Option String
  qualname : Option String
  doc : Option String
  deriving DecidableEq, Repr

/-- The Python values the decorator protocol manipulates: `None`, opaque
non-callable objects (identified by a number), and callables. -/
inductive Value where
  | none
  | obj (id : Nat)
  | func (f : Func)
  deriving DecidableEq, Repr

/-- Python default truthiness on the modelled domain: `None` is falsy,
objects and functions are truthy.  This is the test used by
`if function:` in `__init__` and `if self.function:` in `__call__`. -/
def truthy : Value → Bool
  | Value.none => false
  | Value.obj _ => true
  | Value.func _ => true

/-- The `__module__` attribute of a value, if present.  Plain objects and
`None` expose none of the metadata `update_wrapper` copies. -/
def Value.attrModule : Value → Option String
  | Value.func f => f.module
  | _ => Option.none

/-- The `__name__` attribute of a value, if present. -/
def Value.attrName : Value → Option String
  | Value.func f => f.name
  | _ => Option.none

/-- The `__qualname__` attribute of a value, if present. -/
def Value.attrQualname : Value → Option String
  | Value.func f => f.qualname
  | _ => Option.none

/-- The `__doc__` attribute of a value, if present. -/
def Value.attrDoc : Value → Option String
  | Value.func f => f.doc
  | _ => Option.none

/-- Python exceptions the embedded code can raise. -/
inductive PyErr where
  | notImplementedError (msg : String)
  | indexError (msg : String)
  deriving DecidableEq, Repr

/-- Keyword arguments of a Python call. -/
abbrev Kwargs := List (String × Value)

/-- The attribute dictionary of a `Decorator` instance: the `function`
attribute written by `__init__`/`__wrap__`, the metadata slots written by
`update_wrapper`, and an opaque `config` field standing for whatever
additional attributes a subclass's `__init__` set before delegating to the
base constructor (the base class itself has `C = Unit`). -/
structure DecoratorState (C : Type) where
  config : C
  function : Value
  module : Option String
  name : Option String
  qualname : Option String
  doc : Option String
  wrapped : Option Value
  deriving DecidableEq, Repr

/-- The result of `__call__`: either an ordinary value produced by the
`__decorator__` hook, or the instance itself (`return self`). -/
inductive CallResult where
  | value (v : Value)
  | selfRef
  deriving DecidableEq, Repr

/-- The type of an overridden `__decorator__` hook: given the instance state
and the call's arguments it returns a value or raises, possibly updating the
instance's attributes. -/
abbrev Hook (C : Type) := DecoratorState C → List Value → Kwargs → Except PyErr Value × DecoratorState C

/-- `Decorator.__decorator__` of the base class:
`raise NotImplementedError("Call behavior is not defined in this abstract class")`.
It touches no attribute. -/
def baseDecoratorHook {C : Type} : Hook C := fun st _ _ =>
  (Except.error (PyErr.notImplementedError "Call behavior is not defined in this abstract class"), st)

/-- `functools.update_wrapper(self, function)`: for each of `__module__`,
`__name__`, `__qualname__`, `__doc__`, copy the attribute from the wrapped
value onto the instance if the wrapped value has it, leaving the instance's
slot unchanged otherwise; finally set `self.__wrapped__ = function`.
(The `__dict__` update is the identity here, since the modelled callables
carry no extra instance dictionary.) -/
def updateWrapper {C : Type} (st : DecoratorState C) (function : Value) : DecoratorState C :=
  { st with
    module := function.attrModule <|> st.module
    name := function.attrName <|> st.name
    qualname := function.attrQualname <|> st.qualname
    doc := function.attrDoc <|> st.doc
    wrapped := Option.some function }

/-- `Decorator.__wrap__`: `self.function = function; update_wrapper(self, function)`.
(The Python method then returns `self`; state passing makes that implicit.) -/
def Decorator.wrap {C : Type} (st : DecoratorState C) (function : Value) : DecoratorState C :=
  updateWrapper { st with function := function } function

/-- The instance state right after `self.function = function` in `__init__`,
before the conditional wrapping step: every metadata slot is still unset. -/
def Decorator.initRaw {C : Type} (cfg : C) (function : Value) : DecoratorState C :=
  { config := cfg
    function := function
    module := Option.none
    name := Option.none
    qualname := Option.none
    doc := Option.none
    wrapped := Option.none }

/-- `Decorator.__init__(self, function=None)`:
`self.function = function; if function: self.__wrap__(function)`.
Calling the constructor without an argument is `Decorator.init cfg Value.none`. -/
def Decorator.init {C : Type} (cfg : C) (function : Value) : DecoratorState C :=
  let st := Decorator.initRaw cfg function
  if truthy function then Decorator.wrap st function else st

/-- `Decorator.__call__(self, *args, **kwargs)` with the `__decorator__`
hook supplied explicitly (dynamic dispatch to the overriding subclass):
`if self.function: return self.__decorator__(*args, **kwargs)` else
`return self.__wrap__(args[0])`, where `args[0]` on an empty argument tuple
raises `IndexError` and `__wrap__` returns `self`. -/
def Decorator.callWith {C : Type} (H : Hook C) (st : DecoratorState C)
    (args : List Value) (kwargs : Kwargs) : Except PyErr CallResult × DecoratorState C :=
  if truthy st.function then
    let r := H st args kwargs
    (r.1.map CallResult.value, r.2)
  else
    match args with
    | [] => (Except.error (PyErr.indexError "tuple index out of range"), st)
    | a :: _ => (Except.ok CallResult.selfRef, Decorator.wrap st a)

/-- `__call__` on the base class itself, whose `__decorator__` raises. -/
def Decorator.call {C : Type} (st : DecoratorState C) (args : List Value) (kwargs : Kwargs) :
    Except PyErr CallResult × DecoratorState C :=
  Decorator.callWith baseDecoratorHook st args kwargs

/-- The result of `Decorator.__get__(self, instance, klass=None)`: either the
instance itself (`instance is None`) or the bound callable
`partial(self, instance)`. -/
inductive GetResult where
  | selfRef
  | bound (receiver : Value)
  deriving DecidableEq, Repr

/-- `Decorator.__get__`: `if instance is None: return self;
return partial(self, instance)`. -/
def Decorator.get (inst : Option Value) : GetResult :=
  match inst with
  | Option.none => GetResult.selfRef
  | Option.some o => GetResult.bound o

/-- Invoking the object returned by `__get__`: the instance itself is called
as usual, and `partial(self, receiver)` calls the decorator with the bound
receiver prepended to the positional arguments (the semantics of
`functools.partial` with one stored positional argument). -/
def GetResult.invoke {C : Type} (H : Hook C) (st : DecoratorState C) :
    GetResult → List Value → Kwargs → Except PyErr CallResult × DecoratorState C
  | GetResult.selfRef, args, kwargs => Decorator.callWith H st args kwargs
  | GetResult.bound r, args, kwargs => Decorator.callWith H st (r :: args) kwargs

/-- A public operation on a base-class `Decorator` instance after
construction: invocation or attribute access. -/
inductive Op where
  | call (args : List Value) (kwargs : Kwargs)
  | getattr (inst : Option Value)
  deriving DecidableEq, Repr

/-- Effect of one public operation on the instance state.  `__get__` reads
the state but never writes it. -/
def Decorator.step {C : Type} (st : DecoratorState C) : Op → DecoratorState C
  | Op.call args kwargs => (Decorator.call st args kwargs).2
  | Op.getattr _ => st

/-- Effect of a sequence of public operations on the instance state. -/
def Decorator.run {C : Type} (st : DecoratorState C) (ops : List Op) : DecoratorState C :=
  ops.foldl Decorator.step st

/-- Sample callable: a plain function with full metadata, standing for
`def add(a, b): return a + b` with a docstring. -/
def sampleFunc : Func :=
  { module := Option.some "sample"
    name := Option.some "add"
    qualname := Option.some "add"
    doc := Option.some "Add two numbers." }

/-- A base-class instance constructed as `Decorator(add)`: armed. -/
def armedState : DecoratorState Unit := Decorator.init () (Value.func sampleFunc)

/-- A base-class instance constructed as `Decorator()`: deferred. -/
def deferredState : DecoratorState Unit := Decorator.init () Value.none

/-- Helper: on a truthy `function` attribute, `__call__` is exactly the
`__decorator__` hook on the same arguments. -/
theorem callWith_armed {C : Type} (H : Hook C) (st : DecoratorState C)
    (h : truthy st.function = true) (args : List Value) (kwargs : Kwargs) :
    Decorator.callWith H st args kwargs =
      ((H st args kwargs).1.map CallResult.value, (H st args kwargs).2) := by
  simp [Decorator.callWith, h]

/-- Helper: `truthy v = true` exactly when `v` is not Python `None`. -/
theorem truthy_iff_ne_none (v : Value) : truthy v = true ↔ v ≠ Value.none := by
  cases v <;> simp [truthy]

/-- C1: if the `function` attribute holds the wrapped callable, then
`__call__` with any positional and keyword arguments invokes the
`__decorator__` hook with exactly those arguments, on the current instance
state, and returns the hook's result (and state update) unchanged. -/
theorem C1_armed_call_forwards_to_hook {C : Type} (H : Hook C) (st : DecoratorState C)
    (f : Func) (h : st.function = Value.func f) (args : List Value) (kwargs : Kwargs) :
    Decorator.callWith H st args kwargs =
      ((H st args kwargs).1.map CallResult.value, (H st args kwargs).2) := by
  exact callWith_armed H st (by rw [h]; rfl) args kwargs

theorem C1_witness :
    armedState.function = Value.func sampleFunc ∧
    Decorator.callWith baseDecoratorHook armedState [Value.obj 1] [] =
      ((baseDecoratorHook armedState [Value.obj 1] []).1.map CallResult.value,
       (baseDecoratorHook armedState [Value.obj 1] []).2) :=
  ⟨by decide, C1_armed_call_forwards_to_hook baseDecoratorHook armedState sampleFunc (by decide)
    [Value.obj 1] []⟩

/-- C2: in the deferred state (`function` attribute is `None`), `__call__`
with a callable first argument performs `__wrap__` on it — the callable
becomes the `function` attribute and the instance becomes armed — and the
call returns the instance itself (`self`). -/
theorem C2_deferred_call_wraps {C : Type} (H : Hook C) (st : DecoratorState C)
    (h : st.function = Value.none) (f : Func) (rest : List Value) (kwargs : Kwargs) :
    Decorator.callWith H st (Value.func f :: rest) kwargs =
      (Except.ok CallResult.selfRef, Decorator.wrap st (Value.func f)) ∧
    (Decorator.wrap st (Value.func f)).function = Value.func f ∧
    truthy (Decorator.wrap st (Value.func f)).function = true := by
  refine ⟨?_, rfl, rfl⟩
  simp [Decorator.callWith, h, truthy]

theorem C2_witness :
    deferredState.function = Value.none ∧
    Decorator.callWith baseDecoratorHook deferredState [Value.func sampleFunc] [] =
      (Except.ok CallResult.selfRef, Decorator.wrap deferredState (Value.func sampleFunc)) ∧
    (Decorator.wrap deferredState (Value.func sampleFunc)).function = Value.func sampleFunc ∧
    truthy (Decorator.wrap deferredState (Value.func sampleFunc)).function = true :=
  ⟨by decide, C2_deferred_call_wraps baseDecoratorHook deferredState (by decide) sampleFunc [] []⟩

/-- C3: invoking an armed instance of the base class itself (whose
`__decorator__` is not overridden) raises
`NotImplementedError("Call behavior is not defined in this abstract class")`
synchronously, leaving the state untouched — it never returns a value. -/
theorem C3_base_armed_raises {C : Type} (st : DecoratorState C)
    (h : truthy st.function = true) (args : List Value) (kwargs : Kwargs) :
    Decorator.call st args kwargs =
      (Except.error (PyErr.notImplementedError "Call behavior is not defined in this abstract class"),
       st) := by
  simp [Decorator.call, Decorator.callWith, h, baseDecoratorHook, Except.map]

theorem C3_witness :
    truthy armedState.function = true ∧
    Decorator.call armedState [Value.obj 7] [] =
      (Except.error (PyErr.notImplementedError "Call behavior is not defined in this abstract class"),
       armedState) :=
  ⟨by decide, C3_base_armed_raises armedState (by decide) [Value.obj 7] []⟩

/-- C4: attribute access through an owning object `o` (`__get__` with
`instance = o`) yields the bound callable `partial(self, o)`, whose
invocation calls the decorator with `o` prepended to the positional
arguments; attribute access with no owning instance (`instance is None`)
returns the decorator instance itself unchanged. -/
theorem C4_get_binding {C : Type} (H : Hook C) (st : DecoratorState C) (o : Value)
    (args : List Value) (kwargs : Kwargs) :
    Decorator.get (Option.some o) = GetResult.bound o ∧
    (Decorator.get (Option.some o)).invoke H st args kwargs =
      Decorator.callWith H st (o :: args) kwargs ∧
    Decorator.get Option.none = GetResult.selfRef :=
  ⟨rfl, rfl, rfl⟩

/-- C5: for a subclass overriding only the `__decorator__` hook, the
deferred two-step application — construct with configuration only, then call
with the target callable — leaves the instance in exactly the state that
direct construction with that callable (and the same configuration) does,
so every subsequent invocation behaves identically. -/
theorem C5_deferred_equals_direct {C : Type} (H : Hook C) (cfg : C) (f : Func)
    (args : List Value) (kwargs : Kwargs) :
    (Decorator.callWith H (Decorator.init cfg Value.none) [Value.func f] []).2 =
      Decorator.init cfg (Value.func f) ∧
    Decorator.callWith H
        ((Decorator.callWith H (Decorator.init cfg Value.none) [Value.func f] []).2) args kwargs =
      Decorator.callWith H (Decorator.init cfg (Value.func f)) args kwargs := by
  constructor
  · rfl
  · rfl

/-- Helper: once the `function` attribute is non-`None`, no public operation
on a base-class instance changes it (`__call__` dispatches to the raising
hook, `__get__` never writes). -/
theorem step_preserves_function {C : Type} (st : DecoratorState C) (op : Op)
    (h : st.function ≠ Value.none) : (Decorator.step st op).function = st.function := by
  cases op with
  | call args kwargs =>
    have ht : truthy st.function = true := (truthy_iff_ne_none st.function).mpr h
    simp [Decorator.step, Decorator.call, Decorator.callWith, ht, baseDecoratorHook]
  | getattr inst => rfl

/-- Helper: the preservation extends to any sequence of public operations. -/
theorem run_preserves_function {C : Type} (st : DecoratorState C) (ops : List Op)
    (h : st.function ≠ Value.none) : (Decorator.run st ops).function = st.function := by
  induction ops generalizing st with
  | nil => rfl
  | cons op ops ih =>
    have hstep := step_preserves_function st op h
    have h2 : (Decorator.step st op).function ≠ Value.none := by rw [hstep]; exact h
    calc (Decorator.run (Decorator.step st op) ops).function
        = (Decorator.step st op).function := ih (Decorator.step st op) h2
      _ = st.function := hstep

/-- C6: write-once invariant of the `function` attribute on a base-class
instance.  Starting from any construction and running any sequence of public
operations, once the attribute is present (non-`None`) after some prefix, any
further operations leave it exactly as it is; hence it transitions at most
once from absent to present and never changes afterwards. -/
theorem C6_wrapped_target_write_once {C : Type} (cfg : C) (v0 : Value)
    (ops extra : List Op)
    (h : (Decorator.run (Decorator.init cfg v0) ops).function ≠ Value.none) :
    (Decorator.run (Decorator.init cfg v0) (ops ++ extra)).function =
      (Decorator.run (Decorator.init cfg v0) ops).function := by
  have hsplit : Decorator.run (Decorator.init cfg v0) (ops ++ extra) =
      Decorator.run (Decorator.run (Decorator.init cfg v0) ops) extra :=
    List.foldl_append Decorator.step (Decorator.init cfg v0) ops extra
  rw [hsplit]
  exact run_preserves_function (Decorator.run (Decorator.init cfg v0) ops) extra h

theorem C6_witness :
    (Decorator.run (Decorator.init () (Value.func sampleFunc)) []).function ≠ Value.none ∧
    (Decorator.run (Decorator.init () (Value.func sampleFunc))
        ([] ++ [Op.call [Value.obj 0] [], Op.getattr (Option.some (Value.obj 3))])).function =
      (Decorator.run (Decorator.init () (Value.func sampleFunc)) []).function :=
  ⟨by decide, C6_wrapped_target_write_once () (Value.func sampleFunc) []
    [Op.call [Value.obj 0] [], Op.getattr (Option.some (Value.obj 3))] (by decide)⟩

/-- C7: constructing with a callable performs `__wrap__` immediately on the
freshly assigned state (storing the callable and copying its metadata),
leaves the instance armed — every subsequent invocation dispatches to the
`__decorator__` hook — while constructing with the argument omitted
(defaulted to `None`) performs no wrapping and leaves the instance deferred. -/
theorem C7_init_arms_with_callable {C : Type} (cfg : C) (f : Func) :
    Decorator.init cfg (Value.func f) =
      Decorator.wrap (Decorator.initRaw cfg (Value.func f)) (Value.func f) ∧
    (Decorator.init cfg (Value.func f)).function = Value.func f ∧
    truthy (Decorator.init cfg (Value.func f)).function = true ∧
    (∀ (H : Hook C) (args : List Value) (kwargs : Kwargs),
      Decorator.callWith H (Decorator.init cfg (Value.func f)) args kwargs =
        ((H (Decorator.init cfg (Value.func f)) args kwargs).1.map CallResult.value,
         (H (Decorator.init cfg (Value.func f)) args kwargs).2)) ∧
    Decorator.init cfg Value.none = Decorator.initRaw cfg Value.none ∧
    (Decorator.init cfg Value.none).function = Value.none := by
  refine ⟨rfl, rfl, rfl, ?_, rfl, rfl⟩
  intro H args kwargs
  exact callWith_armed H (Decorator.init cfg (Value.func f)) rfl args kwargs

/-- C8: whenever the wrapped callable carries a name and a docstring,
`__wrap__` copies them onto the decorator instance, so the instance's
name and docstring equal the callable's afterwards. -/
theorem C8_wrap_copies_metadata {C : Type} (st : DecoratorState C) (f : Func)
    (n d : String) (hn : f.name = Option.some n) (hd : f.doc = Option.some d) :
    (Decorator.wrap st (Value.func f)).name = Option.some n ∧
    (Decorator.wrap st (Value.func f)).doc = Option.some d := by
  constructor
  · simp [Decorator.wrap, updateWrapper, Value.attrName, hn]
  · simp [Decorator.wrap, updateWrapper, Value.attrDoc, hd]

theorem C8_witness :
    sampleFunc.name = Option.some "add" ∧ sampleFunc.doc = Option.some "Add two numbers." ∧
    (Decorator.wrap deferredState (Value.func sampleFunc)).name = Option.some "add" ∧
    (Decorator.wrap deferredState (Value.func sampleFunc)).doc =
      Option.some "Add two numbers." :=
  ⟨rfl, rfl,
    C8_wrap_copies_metadata deferredState sampleFunc "add" "Add two numbers." rfl rfl⟩

/-- C9: in the deferred state, `__call__` looks only at `args[0]`: extra
positional arguments and all keyword arguments are ignored, and the call has
exactly the same result and state update as a call with the first positional
argument alone. -/
theorem C9_deferred_ignores_extras {C : Type} (H : Hook C) (st : DecoratorState C)
    (h : st.function = Value.none) (a : Value) (rest : List Value) (kwargs : Kwargs) :
    Decorator.callWith H st (a :: rest) kwargs = Decorator.callWith H st [a] [] := by
  simp [Decorator.callWith, h, truthy]

theorem C9_witness :
    deferredState.function = Value.none ∧
    Decorator.callWith baseDecoratorHook deferredState
        [Value.func sampleFunc, Value.obj 5] [("verbose", Value.obj 1)] =
      Decorator.callWith baseDecoratorHook deferredState [Value.func sampleFunc] [] :=
  ⟨by decide, C9_deferred_ignores_extras baseDecoratorHook deferredState (by decide)
    (Value.func sampleFunc) [Value.obj 5] [("verbose", Value.obj 1)]⟩

/-- C10: in the deferred state, `__call__` with an empty positional argument
tuple raises `IndexError` from the `args[0]` lookup, and the instance state
— in particular the `function` attribute — is unchanged. -/
theorem C10_deferred_no_args_index_error {C : Type} (H : Hook C) (st : DecoratorState C)
    (h : st.function = Value.none) (kwargs : Kwargs) :
    Decorator.callWith H st [] kwargs =
      (Except.error (PyErr.indexError "tuple index out of range"), st) := by
  simp [Decorator.callWith, h, truthy]

theorem C10_witness :
    deferredState.function = Value.none ∧
    Decorator.callWith baseDecoratorHook deferredState [] [("verbose", Value.obj 1)] =
      (Except.error (PyErr.indexError "tuple index out of range"), deferredState) :=
  ⟨by decide,
    C10_deferred_no_args_index_error baseDecoratorHook deferredState (by decide)
      [("verbose", Value.obj 1)]⟩
